import Mathlib

/- Verification development for the meteor-impact-simulator repository (src/app.py).
   The hazard-model functions, the file-backed impact store and the simulate route
   are embedded shallowly: Python floats become real numbers, Python's round and
   int conversions are modelled explicitly, and the store's persisted file is
   modelled by its parsed contents (a list of records). -/

namespace MeteorImpact

/-- Python's built-in round of a float to an integer: nearest, ties to even. -/
noncomputable def pyRound (x : ℝ) : ℤ :=
  if Int.fract x = 1 / 2 then (if Even ⌊x⌋ then ⌊x⌋ else ⌊x⌋ + 1) else round x

/-- Python's round(x, 1). -/
noncomputable def pyRound1 (x : ℝ) : ℝ := (pyRound (10 * x) : ℝ) / 10

/-- Python's round(x, 2). -/
noncomputable def pyRound2 (x : ℝ) : ℝ := (pyRound (100 * x) : ℝ) / 100

/-- Python's int(x) on a float: truncation toward zero. -/
noncomputable def pyInt (x : ℝ) : ℤ := if 0 ≤ x then ⌊x⌋ else ⌈x⌉

/-- src/app.py lines 108-114: asteroid_kinetic_energy(diameter_m, velocity_km_s,
density=3000), returning megatons of TNT. -/
noncomputable def asteroid_kinetic_energy (diameter_m velocity_km_s : ℝ)
    (density : ℝ := 3000) : ℝ :=
  let radius := diameter_m / 2
  let volume := 4 / 3 * Real.pi * radius ^ 3
  let mass := density * volume
  let velocity := velocity_km_s * 1000
  let energy_joules := 0.5 * mass * velocity ^ 2
  energy_joules / 4.184e15

/-- src/app.py lines 117-118: impact_radius_km(megatons) = 1.5 * megatons ** (1 / 3).
Python's float power falls back to the principal complex power when the base is
negative, so the faithful codomain is the complex numbers; for a nonnegative base
the result is the real cube-root value. -/
noncomputable def impact_radius_km (megatons : ℝ) : ℂ :=
  1.5 * (megatons : ℂ) ^ ((1 : ℂ) / 3)

/-- The real value 1.5 * megatons ^ (1/3) that impact_radius_km produces (as a
Python float) whenever megatons is nonnegative. -/
noncomputable def impact_radius_km_real (megatons : ℝ) : ℝ :=
  1.5 * megatons ^ ((1 : ℝ) / 3)

/-- src/app.py lines 121-123: population_affected(pop_density_per_km2, radius_km)
= int(pi * radius_km ** 2 * pop_density_per_km2). -/
noncomputable def population_affected (pop_density_per_km2 radius_km : ℝ) : ℤ :=
  let area_km2 := Real.pi * radius_km ^ 2
  pyInt (area_km2 * pop_density_per_km2)

/-- src/app.py lines 126-129: impact_earthquake_magnitude(megatons).
For megatons ≤ 0, np.log10 yields -inf (at zero) or NaN (below zero) without
raising, and Python's max(0, x) returns 0 in both cases because NaN and -inf
comparisons against 0 are false; the observable result round(0, 1) = 0 is encoded
directly by the first branch. -/
noncomputable def impact_earthquake_magnitude (megatons : ℝ) : ℝ :=
  if megatons ≤ 0 then 0
  else pyRound1 (max 0 (0.67 * Real.logb 10 (megatons * 4.184e15) - 10.7))

/-- Modelled from the spec: section 4.1 defines earthquakeMagnitude(megatons) as
0.67 * log10(joules) - 10.7 with joules = megatons * 4.184e15, clamped to a minimum
of 0 and with megatons ≤ 0 mapped to 0, and mentions no rounding. Used to compare
the simulate payload fields against the spec's hazard-model output. -/
noncomputable def spec_earthquakeMagnitude (megatons : ℝ) : ℝ :=
  if megatons ≤ 0 then 0
  else max 0 (0.67 * Real.logb 10 (megatons * 4.184e15) - 10.7)

/-- The payload shape built by simulate_impact (src/app.py lines 181-192) and the
record shape held by the impact store. -/
structure ImpactEvent where
  id : String
  name : String
  latitude : Option ℝ
  longitude : Option ℝ
  diameter_m : ℝ
  velocity_km_s : ℝ
  energy_megatons : ℝ
  impact_radius_km : ℝ
  population_affected : ℤ
  earthquake_magnitude : ℝ

/-- src/app.py lines 71-78: load_impacts. The store state is the parsed contents of
impacts.json; a missing or unparseable file corresponds to the state []. -/
def load_impacts (store : List ImpactEvent) : List ImpactEvent := store

/-- src/app.py lines 80-84: save_impact does a full read-modify-write appending one
record at the end. -/
def save_impact (store : List ImpactEvent) (impact : ImpactEvent) : List ImpactEvent :=
  store ++ [impact]

/-- Response of the delete_impact route: 200 with a message, or a 404 error body. -/
inductive DeleteResponse where
  | deleted
  | notFound404
  deriving DecidableEq

/-- src/app.py lines 201-210: delete_impact keeps every record whose id differs from
the given one; if nothing was removed it returns 404 via an early return, leaving
the file unwritten, otherwise it persists the filtered list. The first component is
the store contents after the call. -/
def delete_impact (store : List ImpactEvent) (impact_id : String) :
    List ImpactEvent × DeleteResponse :=
  let new_impacts := store.filter (fun i => decide (i.id ≠ impact_id))
  if new_impacts.length = store.length then (store, DeleteResponse.notFound404)
  else (new_impacts, DeleteResponse.deleted)

/-- Body of a POST /simulate_impact request; data.get(key) yields none when the key
is absent or null. -/
structure SimRequest where
  diameter_m : Option ℝ
  velocity_km_s : Option ℝ
  latitude : Option ℝ
  longitude : Option ℝ
  pop_density_per_km2 : Option ℝ

/-- Failure of the simulate route before anything is persisted. -/
inductive SimError where
  | typeError
  deriving DecidableEq

/-- src/app.py lines 167-195: the simulate_impact route. Defaults 50, 20 and 1000
are applied to diameter, velocity and population density; latitude and longitude
have no default. The hazard chain runs first (lines 176-179); then the result dict
is built (181-192), whose name field evaluates round(lat, 2) and round(lon, 2) and
raises TypeError when either coordinate is None, before save_impact on line 194
ever runs - this ordering is captured by the match below. The interpolated name
string itself is not modelled (float formatting); the random id is a parameter.
The radius is taken through the real branch, which agrees with the code whenever
the energy is nonnegative. -/
noncomputable def simulate_impact (store : List ImpactEvent) (data : SimRequest)
    (rand_id : ℕ) : List ImpactEvent × Except SimError ImpactEvent :=
  let diameter := data.diameter_m.getD 50
  let velocity := data.velocity_km_s.getD 20
  let pop_density := data.pop_density_per_km2.getD 1000
  let energy_mt := asteroid_kinetic_energy diameter velocity
  let radius_km := impact_radius_km_real energy_mt
  let population := population_affected pop_density radius_km
  let earthquake_mag := impact_earthquake_magnitude energy_mt
  match data.latitude, data.longitude with
  | some lat, some lon =>
    let result : ImpactEvent :=
      { id := "sim_" ++ toString rand_id
        name := "Simulated Impact"
        latitude := some lat
        longitude := some lon
        diameter_m := diameter
        velocity_km_s := velocity
        energy_megatons := pyRound2 energy_mt
        impact_radius_km := pyRound2 radius_km
        population_affected := population
        earthquake_magnitude := earthquake_mag }
    (save_impact store result, Except.ok result)
  | _, _ => (store, Except.error SimError.typeError)

/-- Energy field of a simulate response payload (0 when the request failed). -/
noncomputable def payloadEnergy (r : List ImpactEvent × Except SimError ImpactEvent) : ℝ :=
  match r.2 with
  | Except.ok ev => ev.energy_megatons
  | Except.error _ => 0

/-- Radius field of a simulate response payload (0 when the request failed). -/
noncomputable def payloadRadius (r : List ImpactEvent × Except SimError ImpactEvent) : ℝ :=
  match r.2 with
  | Except.ok ev => ev.impact_radius_km
  | Except.error _ => 0

/-- Magnitude field of a simulate response payload (0 when the request failed). -/
noncomputable def payloadMagnitude (r : List ImpactEvent × Except SimError ImpactEvent) : ℝ :=
  match r.2 with
  | Except.ok ev => ev.earthquake_magnitude
  | Except.error _ => 0

/-- Population field of a simulate response payload (0 when the request failed). -/
noncomputable def payloadPopulation (r : List ImpactEvent × Except SimError ImpactEvent) : ℤ :=
  match r.2 with
  | Except.ok ev => ev.population_affected
  | Except.error _ => 0

/-- Sample stored event with id a. -/
noncomputable def evA : ImpactEvent :=
  { id := "a", name := "first", latitude := none, longitude := none, diameter_m := 1,
    velocity_km_s := 1, energy_megatons := 1, impact_radius_km := 1,
    population_affected := 1, earthquake_magnitude := 1 }

/-- A different sample event sharing the id a. -/
noncomputable def evA2 : ImpactEvent := { evA with name := "second" }

/-- Sample stored event with id b. -/
noncomputable def evB : ImpactEvent := { evA with id := "b" }

/-- A well-formed simulate request with all fields present. -/
noncomputable def okRequest : SimRequest :=
  { diameter_m := some 50, velocity_km_s := some 20, latitude := some 0,
    longitude := some 0, pop_density_per_km2 := some 1000 }

/-- A simulate request whose body omits latitude. -/
noncomputable def noLatRequest : SimRequest :=
  { diameter_m := some 50, velocity_km_s := some 20, latitude := none,
    longitude := some 0, pop_density_per_km2 := some 1000 }

/-- A simulate request with diameter 100 m and velocity 20 km/s, chosen so that the
impact energy in joules is exactly pi * 10^17. -/
noncomputable def req100 : SimRequest :=
  { diameter_m := some 100, velocity_km_s := some 20, latitude := some 0,
    longitude := some 0, pop_density_per_km2 := some 1000 }

noncomputable instance : DecidableEq ImpactEvent := Classical.decEq _

/-! Helper lemmas about the rounding and truncation models. -/

/-- The tie branch of pyRound is unreachable strictly inside (k - 1/2, k + 1/2),
where the result is the nearest integer k. -/
theorem pyRound_eq_of_bounds {x : ℝ} {k : ℤ} (h1 : (k : ℝ) - 1 / 2 < x)
    (h2 : x < (k : ℝ) + 1 / 2) : pyRound x = k := by
  unfold pyRound
  rw [if_neg]
  · rw [round_eq, Int.floor_eq_iff]
    constructor
    · linarith
    · linarith
  · intro hf
    have hx : x = (⌊x⌋ : ℝ) + 1 / 2 := by
      have := Int.fract_add_floor x
      rw [hf] at this
      linarith
    have hlt : (k : ℝ) - 1 < (⌊x⌋ : ℝ) := by linarith
    have hgt : (⌊x⌋ : ℝ) < (k : ℝ) := by linarith
    have hlt' : k - 1 < ⌊x⌋ := by exact_mod_cast hlt
    have hgt' : ⌊x⌋ < k := by exact_mod_cast hgt
    omega

/-- pyRound sends nonnegative reals to nonnegative integers. -/
theorem pyRound_nonneg {x : ℝ} (hx : 0 ≤ x) : 0 ≤ pyRound x := by
  unfold pyRound
  split
  · have h0 : (0 : ℤ) ≤ ⌊x⌋ := Int.floor_nonneg.mpr hx
    split <;> omega
  · rw [round_eq]
    exact Int.floor_nonneg.mpr (by linarith)

/-- pyRound is the identity on integers. -/
theorem pyRound_intCast (n : ℤ) : pyRound ((n : ℝ)) = n := by
  unfold pyRound
  rw [if_neg]
  · exact round_intCast n
  · rw [Int.fract_intCast]
    norm_num

/-- Rounding an exact multiple of one tenth to one decimal changes nothing. -/
theorem pyRound1_tenth (k : ℤ) : pyRound1 ((k : ℝ) / 10) = (k : ℝ) / 10 := by
  unfold pyRound1
  rw [show (10 : ℝ) * ((k : ℝ) / 10) = (k : ℝ) by ring, pyRound_intCast]

/-- Rounding an exact multiple of one tenth to two decimals changes nothing. -/
theorem pyRound2_tenth (k : ℤ) : pyRound2 ((k : ℝ) / 10) = (k : ℝ) / 10 := by
  unfold pyRound2
  rw [show (100 : ℝ) * ((k : ℝ) / 10) = ((10 * k : ℤ) : ℝ) by push_cast; ring,
    pyRound_intCast]
  push_cast
  ring

/-- pyInt sends nonpositive reals to nonpositive integers. -/
theorem pyInt_nonpos {x : ℝ} (hx : x ≤ 0) : pyInt x ≤ 0 := by
  unfold pyInt
  split
  · have hx0 : x = 0 := le_antisymm hx (by assumption)
    simp [hx0]
  · exact Int.ceil_le.mpr (by exact_mod_cast hx)

/-- Every value of impact_earthquake_magnitude is an exact multiple of one tenth. -/
theorem magnitude_is_tenth (m : ℝ) :
    ∃ k : ℤ, impact_earthquake_magnitude m = (k : ℝ) / 10 := by
  unfold impact_earthquake_magnitude
  split
  · exact ⟨0, by norm_num⟩
  · exact ⟨pyRound (10 * max 0 (0.67 * Real.logb 10 (m * 4.184e15) - 10.7)), rfl⟩

/-! Helper lemmas about logarithms and the concrete energies used below. -/

/-- Base-ten logarithm of a power of ten. -/
theorem logb_ten_pow (k : ℕ) : Real.logb 10 ((10 : ℝ) ^ k) = k := by
  rw [Real.logb_pow, Real.logb_self_eq_one (by norm_num)]
  ring

/-- Lower bound 0.49 < log10 pi, via 10^449 < 31415^100 and 3.1415 < pi. -/
theorem logb_pi_gt : 49 / 100 < Real.logb 10 Real.pi := by
  have hlow : (10 : ℝ) ^ (49 : ℕ) < Real.pi ^ (100 : ℕ) := by
    have h1 : ((31415 : ℝ) / 10 ^ 4) ^ (100 : ℕ) ≤ Real.pi ^ (100 : ℕ) := by
      apply pow_le_pow_left₀ (by norm_num)
      nlinarith [Real.pi_gt_d4]
    have h2 : (10 : ℝ) ^ (49 : ℕ) < ((31415 : ℝ) / 10 ^ 4) ^ (100 : ℕ) := by
      rw [div_pow, lt_div_iff₀ (by positivity)]
      norm_num
    linarith
  have hmono := Real.logb_lt_logb (by norm_num : (1 : ℝ) < 10) (by positivity) hlow
  rw [Real.logb_pow, Real.logb_pow, Real.logb_self_eq_one (by norm_num)] at hmono
  push_cast at hmono
  linarith

/-- Upper bound log10 pi < 0.5, via 31416^100 < 10^450 and pi < 3.1416. -/
theorem logb_pi_lt : Real.logb 10 Real.pi < 1 / 2 := by
  have hhigh : Real.pi ^ (100 : ℕ) < (10 : ℝ) ^ (50 : ℕ) := by
    have h1 : Real.pi ^ (100 : ℕ) ≤ ((31416 : ℝ) / 10 ^ 4) ^ (100 : ℕ) := by
      apply pow_le_pow_left₀ Real.pi_pos.le
      nlinarith [Real.pi_lt_d4]
    have h2 : ((31416 : ℝ) / 10 ^ 4) ^ (100 : ℕ) < (10 : ℝ) ^ (50 : ℕ) := by
      rw [div_pow, div_lt_iff₀ (by positivity)]
      norm_num
    linarith
  have hmono := Real.logb_lt_logb (by norm_num : (1 : ℝ) < 10)
    (pow_pos Real.pi_pos 100) hhigh
  rw [Real.logb_pow, Real.logb_pow, Real.logb_self_eq_one (by norm_num)] at hmono
  push_cast at hmono
  linarith

/-- Exact closed form of the Chicxulub-scale energy. -/
theorem energy_chicxulub :
    asteroid_kinetic_energy 10000 20 3000 = Real.pi * (12500000000 / 523) := by
  simp only [asteroid_kinetic_energy]
  rw [div_eq_iff (by norm_num : (4.184e15 : ℝ) ≠ 0)]
  ring_nf

/-- The 100 m / 20 km/s scenario releases exactly pi * 10^17 joules. -/
theorem energy_d100_joules :
    asteroid_kinetic_energy 100 20 * 4.184e15 = Real.pi * 10 ^ 17 := by
  simp only [asteroid_kinetic_energy]
  rw [div_mul_cancel₀ _ (by norm_num : (4.184e15 : ℝ) ≠ 0)]
  ring_nf

/-- Exact closed form of the energy at the invalid diameter -100. -/
theorem energy_neg_d100 :
    asteroid_kinetic_energy (-100) 20 3000 = -(Real.pi * (12500 / 523)) := by
  simp only [asteroid_kinetic_energy]
  rw [div_eq_iff (by norm_num : (4.184e15 : ℝ) ≠ 0)]
  ring_nf

/-- The 100 m / 20 km/s energy is positive. -/
theorem energy_d100_pos : 0 < asteroid_kinetic_energy 100 20 := by
  have hπ : (0 : ℝ) < Real.pi * 10 ^ 17 := by positivity
  nlinarith [energy_d100_joules]

/-! Helper lemmas about impact_radius_km over the complex numbers. -/

/-- For a negative argument the code's complex result has strictly positive
imaginary part (the principal cube root lies off the real axis). -/
theorem impact_radius_im_pos {m : ℝ} (hm : m < 0) : 0 < (impact_radius_km m).im := by
  have hm0 : ((m : ℝ) : ℂ) ≠ 0 := Complex.ofReal_ne_zero.mpr hm.ne
  unfold impact_radius_km
  rw [Complex.cpow_def_of_ne_zero hm0]
  have h15 : (1.5 : ℂ) = ((1.5 : ℝ) : ℂ) := by norm_num
  have h13 : ((1 : ℂ) / 3) = ((1 / 3 : ℝ) : ℂ) := by norm_num
  rw [h15, h13, Complex.im_ofReal_mul]
  have him : (Complex.log m * ((1 / 3 : ℝ) : ℂ)).im = Real.pi * (1 / 3) := by
    rw [Complex.mul_im]
    simp [Complex.log_im, Complex.arg_ofReal_of_neg hm]
  rw [Complex.exp_im, him]
  have hsin : 0 < Real.sin (Real.pi * (1 / 3)) := by
    apply Real.sin_pos_of_pos_of_lt_pi
    · positivity
    · nlinarith [Real.pi_pos]
  positivity

/-- For a nonnegative argument the complex power collapses to the real value. -/
theorem impact_radius_real_of_nonneg {m : ℝ} (hm : 0 ≤ m) :
    impact_radius_km m = ((impact_radius_km_real m : ℝ) : ℂ) := by
  unfold impact_radius_km impact_radius_km_real
  have h13 : ((1 : ℂ) / 3) = ((1 / 3 : ℝ) : ℂ) := by norm_num
  rw [h13, ← Complex.ofReal_cpow hm]
  push_cast
  norm_num

/-- At zero megatons the radius is zero. -/
theorem impact_radius_zero : impact_radius_km 0 = 0 := by
  unfold impact_radius_km
  rw [Complex.ofReal_zero, Complex.zero_cpow (by norm_num)]
  ring

/-! Helper lemma for the delete operation under the unique-id invariant. -/

/-- When the stored ids are pairwise distinct, filtering one id away removes at
most one record. -/
theorem length_le_filter_add_one (iid : String) :
    ∀ s : List ImpactEvent, (s.map ImpactEvent.id).Nodup →
      s.length ≤ (s.filter (fun i => decide (i.id ≠ iid))).length + 1 := by
  intro s
  induction s with
  | nil => simp
  | cons a t ih =>
    intro h
    rw [List.map_cons, List.nodup_cons] at h
    by_cases ha : a.id = iid
    · have ht : t.filter (fun i => decide (i.id ≠ iid)) = t := by
        apply List.filter_eq_self.mpr
        intro b hb
        have hbne : b.id ≠ iid := by
          intro hbid
          exact h.1 (List.mem_map.mpr ⟨b, hb, by rw [hbid, ha]⟩)
        simpa using hbne
      rw [List.filter_cons_of_neg (by simpa using ha), ht]
      simp
    · rw [List.filter_cons_of_pos (by simpa using ha)]
      simp only [List.length_cons]
      have := ih h.2
      omega

/-! Claim theorems. -/

/-- C1: for positive diameter, velocity and density, asteroid_kinetic_energy equals
(1/2 · density · (4/3)·pi·(diameter/2)^3 · (velocity·1000)^2) / 4.184e15, and the
Chicxulub-scale value asteroid_kinetic_energy 10000 20 3000 has the same order of
magnitude as 1.0e8 megatons (it lies between 5e7 and 1.5e8; its exact value is
pi · 12500000000 / 523, about 7.5e7). -/
theorem kineticEnergy_formula_and_chicxulub (d v ρ : ℝ) (hd : 0 < d) (hv : 0 < v)
    (hρ : 0 < ρ) :
    asteroid_kinetic_energy d v ρ =
      (1 / 2 * ρ * (4 / 3 * Real.pi * (d / 2) ^ 3) * (v * 1000) ^ 2) / 4.184e15 ∧
    5 * 10 ^ 7 ≤ asteroid_kinetic_energy 10000 20 3000 ∧
    asteroid_kinetic_energy 10000 20 3000 ≤ 15 * 10 ^ 7 := by
  refine ⟨?_, ?_, ?_⟩
  · simp only [asteroid_kinetic_energy]
    ring_nf
  · rw [energy_chicxulub]
    nlinarith [Real.pi_gt_three]
  · rw [energy_chicxulub]
    nlinarith [Real.pi_lt_d2]

/-- Witness for C1 at diameter 1, velocity 1, density 1. -/
theorem kineticEnergy_formula_and_chicxulub_witness :
    asteroid_kinetic_energy 1 1 1 =
      (1 / 2 * 1 * (4 / 3 * Real.pi * ((1 : ℝ) / 2) ^ 3) * ((1 : ℝ) * 1000) ^ 2) / 4.184e15 ∧
    5 * 10 ^ 7 ≤ asteroid_kinetic_energy 10000 20 3000 ∧
    asteroid_kinetic_energy 10000 20 3000 ≤ 15 * 10 ^ 7 :=
  kineticEnergy_formula_and_chicxulub 1 1 1 (by norm_num) (by norm_num) (by norm_num)

/-- C2 counterexample: at megatons = -1 the code returns a complex number off the
real axis (Python float power falls back to the principal complex power), not 0 as
the claim states for megatons ≤ 0. -/
theorem impactRadius_negative_counterexample :
    impact_radius_km (-1) ≠ 0 ∧ (impact_radius_km (-1)).im ≠ 0 := by
  have h := impact_radius_im_pos (by norm_num : (-1 : ℝ) < 0)
  refine ⟨fun hz => ?_, h.ne'⟩
  rw [hz] at h
  simp at h

/-- C2 amended: for megatons > 0 the result is the real value 1.5 · megatons^(1/3);
at megatons = 0 it is 0; for megatons < 0 it is a complex number with nonzero
imaginary part rather than 0; and the real-valued branch is monotonically
non-decreasing on nonnegative inputs. -/
theorem impactRadius_behavior :
    (∀ m : ℝ, 0 < m → impact_radius_km m = ((impact_radius_km_real m : ℝ) : ℂ)) ∧
    impact_radius_km 0 = 0 ∧
    (∀ m : ℝ, m < 0 → (impact_radius_km m).im ≠ 0) ∧
    (∀ a b : ℝ, 0 ≤ a → a ≤ b → impact_radius_km_real a ≤ impact_radius_km_real b) := by
  refine ⟨fun m hm => impact_radius_real_of_nonneg hm.le, impact_radius_zero,
    fun m hm => (impact_radius_im_pos hm).ne', fun a b ha hab => ?_⟩
  unfold impact_radius_km_real
  have h := Real.rpow_le_rpow ha hab (by norm_num : (0 : ℝ) ≤ 1 / 3)
  nlinarith [h]

/-- Witness for C2 at megatons 1, -2 and the pair (1, 2). -/
theorem impactRadius_behavior_witness :
    impact_radius_km 1 = ((impact_radius_km_real 1 : ℝ) : ℂ) ∧
    (impact_radius_km (-2)).im ≠ 0 ∧
    impact_radius_km_real 1 ≤ impact_radius_km_real 2 :=
  ⟨impactRadius_behavior.1 1 (by norm_num),
   impactRadius_behavior.2.2.1 (-2) (by norm_num),
   impactRadius_behavior.2.2.2 1 2 (by norm_num) (by norm_num)⟩

/-- C3 counterexample: at megatons = 12500/523 the joules are exactly 10^17, the
unclamped formula gives 0.67·17 - 10.7 = 0.69, but the code reports round(0.69, 1)
= 0.7, so the result does not equal max(0, 0.67·log10(joules) - 10.7). -/
theorem earthquakeMagnitude_unrounded_counterexample :
    impact_earthquake_magnitude (12500 / 523) = 7 / 10 ∧
    max 0 (0.67 * Real.logb 10 ((12500 / 523 : ℝ) * 4.184e15) - 10.7) = 69 / 100 ∧
    impact_earthquake_magnitude (12500 / 523) ≠
      max 0 (0.67 * Real.logb 10 ((12500 / 523 : ℝ) * 4.184e15) - 10.7) := by
  have hj : ((12500 : ℝ) / 523) * 4.184e15 = 10 ^ 17 := by norm_num
  have hl : Real.logb 10 (((12500 : ℝ) / 523) * 4.184e15) = 17 := by
    rw [hj, logb_ten_pow]
    norm_num
  have hmax : max 0 (0.67 * Real.logb 10 ((12500 / 523 : ℝ) * 4.184e15) - 10.7)
      = 69 / 100 := by
    rw [hl]
    norm_num
  have hlhs : impact_earthquake_magnitude (12500 / 523) = 7 / 10 := by
    unfold impact_earthquake_magnitude
    rw [if_neg (by norm_num), hmax]
    unfold pyRound1
    rw [show (10 : ℝ) * (69 / 100) = 69 / 10 by norm_num,
      pyRound_eq_of_bounds (k := 7) (by norm_num) (by norm_num)]
    norm_num
  refine ⟨hlhs, hmax, ?_⟩
  rw [hlhs, hmax]
  norm_num

/-- C3 amended: the result is always ≥ 0; for megatons ≤ 0 the logarithm is still
evaluated by the code (np.log10 yields -inf or NaN without raising) but max(0, ·)
yields 0, so the result is 0; and for megatons > 0 the result is
max(0, 0.67·log10(megatons·4.184e15) - 10.7) rounded to one decimal place. -/
theorem earthquakeMagnitude_behavior :
    (∀ m : ℝ, 0 ≤ impact_earthquake_magnitude m) ∧
    (∀ m : ℝ, m ≤ 0 → impact_earthquake_magnitude m = 0) ∧
    (∀ m : ℝ, 0 < m → impact_earthquake_magnitude m =
      pyRound1 (max 0 (0.67 * Real.logb 10 (m * 4.184e15) - 10.7))) := by
  refine ⟨fun m => ?_, fun m hm => by unfold impact_earthquake_magnitude; rw [if_pos hm],
    fun m hm => by unfold impact_earthquake_magnitude; rw [if_neg (not_le.mpr hm)]⟩
  unfold impact_earthquake_magnitude
  split
  · exact le_refl 0
  · unfold pyRound1
    have h1 : (0 : ℝ) ≤ 10 * max 0 (0.67 * Real.logb 10 (m * 4.184e15) - 10.7) := by
      positivity
    have h2 := pyRound_nonneg h1
    have h3 : (0 : ℝ) ≤ (pyRound (10 * max 0 (0.67 * Real.logb 10 (m * 4.184e15) - 10.7)) : ℝ) := by
      exact_mod_cast h2
    linarith

/-- Witness for C3 at megatons -3 and 1. -/
theorem earthquakeMagnitude_behavior_witness :
    impact_earthquake_magnitude (-3) = 0 ∧
    0 ≤ impact_earthquake_magnitude (-3) ∧
    impact_earthquake_magnitude 1 =
      pyRound1 (max 0 (0.67 * Real.logb 10 ((1 : ℝ) * 4.184e15) - 10.7)) :=
  ⟨earthquakeMagnitude_behavior.2.1 (-3) (by norm_num),
   earthquakeMagnitude_behavior.1 (-3),
   earthquakeMagnitude_behavior.2.2 1 (by norm_num)⟩

/-- C4 counterexample: the code performs no input validation, so a non-positive
diameter and a negative density produce ordinary numeric results instead of an
InvalidInput error: the energy at diameter -100 is a definite negative real and
population_affected (-1000) 10 is the concrete integer -314159. -/
theorem hazard_invalid_inputs_counterexample :
    asteroid_kinetic_energy (-100) 20 3000 < 0 ∧
    population_affected (-1000) 10 = -314159 := by
  constructor
  · rw [energy_neg_d100]
    have h : (0 : ℝ) < Real.pi * (12500 / 523) := by positivity
    linarith
  · simp only [population_affected]
    rw [show Real.pi * 10 ^ 2 * (-1000) = -(100000 * Real.pi) by ring]
    unfold pyInt
    rw [if_neg (not_le.mpr (by nlinarith [Real.pi_pos]))]
    rw [Int.ceil_eq_iff]
    constructor
    · push_cast
      nlinarith [Real.pi_lt_d6]
    · push_cast
      nlinarith [Real.pi_gt_d6]

/-- C4 amended: neither function signals any error; they are total. A non-positive
diameter yields a non-positive numeric energy through the same formula, and a
negative population density yields a non-positive numeric population count. -/
theorem hazard_no_input_validation :
    (∀ d v ρ : ℝ, d ≤ 0 → 0 < v → 0 < ρ → asteroid_kinetic_energy d v ρ ≤ 0) ∧
    (∀ pd r : ℝ, pd < 0 → population_affected pd r ≤ 0) := by
  constructor
  · intro d v ρ hd hv hρ
    simp only [asteroid_kinetic_energy]
    have hcube : (d / 2) ^ 3 ≤ 0 := Odd.pow_nonpos (by decide) (by linarith)
    have hvol : 4 / 3 * Real.pi * (d / 2) ^ 3 ≤ 0 :=
      mul_nonpos_iff.mpr (Or.inl ⟨by positivity, hcube⟩)
    have hmass : ρ * (4 / 3 * Real.pi * (d / 2) ^ 3) ≤ 0 :=
      mul_nonpos_iff.mpr (Or.inl ⟨hρ.le, hvol⟩)
    have h05 : 0.5 * (ρ * (4 / 3 * Real.pi * (d / 2) ^ 3)) ≤ 0 :=
      mul_nonpos_iff.mpr (Or.inl ⟨by norm_num, hmass⟩)
    have hnum : 0.5 * (ρ * (4 / 3 * Real.pi * (d / 2) ^ 3)) * (v * 1000) ^ 2 ≤ 0 :=
      mul_nonpos_iff.mpr (Or.inr ⟨h05, sq_nonneg _⟩)
    exact div_nonpos_iff.mpr (Or.inr ⟨hnum, by norm_num⟩)
  · intro pd r hpd
    simp only [population_affected]
    apply pyInt_nonpos
    exact mul_nonpos_iff.mpr (Or.inl ⟨by positivity, hpd.le⟩)

/-- Witness for C4 at diameter -100 and density -1000. -/
theorem hazard_no_input_validation_witness :
    asteroid_kinetic_energy (-100) 20 3000 ≤ 0 ∧
    population_affected (-1000) 10 ≤ 0 :=
  ⟨hazard_no_input_validation.1 (-100) 20 3000 (by norm_num) (by norm_num) (by norm_num),
   hazard_no_input_validation.2 (-1000) 10 (by norm_num)⟩

/-- C5: for nonnegative density and radius, population_affected is the floor of
pi · radius^2 · density and is nonnegative; and population_affected 1000 10 is
exactly 314159. -/
theorem populationAffected_floor_spec :
    (∀ pd r : ℝ, 0 ≤ pd → 0 ≤ r →
      population_affected pd r = ⌊Real.pi * r ^ 2 * pd⌋ ∧
      0 ≤ population_affected pd r) ∧
    population_affected 1000 10 = 314159 := by
  constructor
  · intro pd r hpd hr
    have harg : 0 ≤ Real.pi * r ^ 2 * pd := by positivity
    constructor
    · simp only [population_affected]
      unfold pyInt
      rw [if_pos harg]
    · simp only [population_affected]
      unfold pyInt
      rw [if_pos harg]
      exact Int.floor_nonneg.mpr harg
  · simp only [population_affected]
    unfold pyInt
    rw [if_pos (by positivity), Int.floor_eq_iff]
    rw [show Real.pi * 10 ^ 2 * 1000 = 100000 * Real.pi by ring]
    constructor
    · push_cast
      nlinarith [Real.pi_gt_d6]
    · push_cast
      nlinarith [Real.pi_lt_d6]

/-- Witness for C5 at density 1, radius 1. -/
theorem populationAffected_floor_spec_witness :
    population_affected 1 1 = ⌊Real.pi * 1 ^ 2 * 1⌋ ∧
    0 ≤ population_affected 1 1 ∧
    population_affected 1000 10 = 314159 :=
  ⟨(populationAffected_floor_spec.1 1 1 (by norm_num) (by norm_num)).1,
   (populationAffected_floor_spec.1 1 1 (by norm_num) (by norm_num)).2,
   populationAffected_floor_spec.2⟩

/-- C6 counterexample: with two stored records sharing id a, a single delete call
removes both of them - the store shrinks by two, not at most one. -/
theorem deleteById_duplicate_ids_counterexample :
    delete_impact [evA, evA2] "a" = ([], DeleteResponse.deleted) ∧
    load_impacts ([] : List ImpactEvent) = [] ∧
    ([] : List ImpactEvent).length + 2 = [evA, evA2].length :=
  ⟨rfl, rfl, rfl⟩

/-- C6 amended: delete_impact removes every record whose id matches, so it removes
at most one record per call only under the expected invariant that stored ids are
pairwise distinct; under that invariant the store shrinks by at most one. -/
theorem deleteById_at_most_one_of_unique (s : List ImpactEvent) (iid : String)
    (h : (s.map ImpactEvent.id).Nodup) :
    (load_impacts (delete_impact s iid).1).length ≤ s.length ∧
    s.length ≤ (load_impacts (delete_impact s iid).1).length + 1 := by
  simp only [load_impacts, delete_impact]
  split
  · exact ⟨le_refl _, Nat.le_succ _⟩
  · exact ⟨List.length_filter_le _ _, length_le_filter_add_one iid s h⟩

/-- Witness for C6 on the two-element store with distinct ids a and b. -/
theorem deleteById_at_most_one_of_unique_witness :
    (load_impacts (delete_impact [evA, evB] "a").1).length ≤ [evA, evB].length ∧
    [evA, evB].length ≤ (load_impacts (delete_impact [evA, evB] "a").1).length + 1 :=
  deleteById_at_most_one_of_unique [evA, evB] "a"
    (by have h : [evA, evB].map ImpactEvent.id = ["a", "b"] := rfl
        rw [h]
        decide)

/-- C7: deleting an id that matches no stored record returns the 404 response via
the early return, so the backing file is not rewritten and a subsequent load
returns the unchanged contents. -/
theorem deleteById_absent_id_not_found (s : List ImpactEvent) (iid : String)
    (h : ∀ e ∈ s, e.id ≠ iid) :
    delete_impact s iid = (s, DeleteResponse.notFound404) ∧
    load_impacts (delete_impact s iid).1 = s := by
  have hf : s.filter (fun i => decide (i.id ≠ iid)) = s :=
    List.filter_eq_self.mpr (fun a ha => by simpa using h a ha)
  have heq : delete_impact s iid = (s, DeleteResponse.notFound404) := by
    simp only [delete_impact]
    rw [hf, if_pos rfl]
  exact ⟨heq, by rw [heq]; rfl⟩

/-- Witness for C7: deleting the absent id zzz from the store containing evA. -/
theorem deleteById_absent_id_not_found_witness :
    delete_impact [evA] "zzz" = ([evA], DeleteResponse.notFound404) ∧
    load_impacts (delete_impact [evA] "zzz").1 = [evA] :=
  deleteById_absent_id_not_found [evA] "zzz"
    (by intro e he
        rw [List.mem_singleton] at he
        subst he
        decide)

/-- C8 counterexample: if the event is already present, appending it again makes it
occur twice, refuting the exactly-once round-trip for arbitrary prior contents. -/
theorem append_duplicate_counterexample :
    List.count evA (load_impacts (save_impact [evA] evA)) = 2 := by
  simp [load_impacts, save_impact, List.count_cons_self]

/-- C8 amended: for an event not already present, append followed by load yields
the prior contents with the event appended once at the end (so it occurs exactly
once), and delete by its id then reports success and yields contents excluding it. -/
theorem store_roundtrip_fresh_event (s : List ImpactEvent) (e : ImpactEvent)
    (he : e ∉ s) :
    load_impacts (save_impact s e) = s ++ [e] ∧
    List.count e (load_impacts (save_impact s e)) = 1 ∧
    (delete_impact (save_impact s e) e.id).2 = DeleteResponse.deleted ∧
    e ∉ (delete_impact (save_impact s e) e.id).1 := by
  have hmem : e ∈ save_impact s e := by simp [save_impact]
  have hlt : ((save_impact s e).filter (fun i => decide (i.id ≠ e.id))).length <
      (save_impact s e).length := by
    rw [List.length_filter_lt_length_iff_exists]
    exact ⟨e, hmem, by simp⟩
  refine ⟨rfl, ?_, ?_, ?_⟩
  · simp [load_impacts, save_impact, List.count_append, List.count_eq_zero.mpr he]
  · simp only [delete_impact]
    rw [if_neg (Nat.ne_of_lt hlt)]
  · simp only [delete_impact]
    rw [if_neg (Nat.ne_of_lt hlt)]
    intro hmemf
    have := (List.mem_filter.mp hmemf).2
    simp at this

/-- Witness for C8: appending evA to the empty store. -/
theorem store_roundtrip_fresh_event_witness :
    load_impacts (save_impact [] evA) = [] ++ [evA] ∧
    List.count evA (load_impacts (save_impact [] evA)) = 1 ∧
    (delete_impact (save_impact [] evA) evA.id).2 = DeleteResponse.deleted ∧
    evA ∉ (delete_impact (save_impact [] evA) evA.id).1 :=
  store_roundtrip_fresh_event [] evA (by simp)

/-- C9 counterexample: for the simulate request with diameter 100 m and velocity
20 km/s the joules are exactly pi·10^17, so the spec's unrounded hazard magnitude
lies strictly between 1.018 and 1.025; rounded to two decimals it is 1.02, but the
payload field carries the one-decimal value 1.0, so the field is not the hazard
result rounded to two decimal places. -/
theorem simulate_magnitude_rounding_counterexample :
    payloadMagnitude (simulate_impact [] req100 0) = 1 ∧
    pyRound2 (spec_earthquakeMagnitude (asteroid_kinetic_energy 100 20)) = 51 / 50 ∧
    payloadMagnitude (simulate_impact [] req100 0) ≠
      pyRound2 (spec_earthquakeMagnitude (asteroid_kinetic_energy 100 20)) := by
  have hE := energy_d100_pos
  have hlogb : Real.logb 10 (asteroid_kinetic_energy 100 20 * 4.184e15) =
      Real.logb 10 Real.pi + 17 := by
    rw [energy_d100_joules,
      Real.logb_mul (ne_of_gt Real.pi_pos) (by positivity), logb_ten_pow]
    norm_num
  have hyb1 : 1018 / 1000 <
      0.67 * Real.logb 10 (asteroid_kinetic_energy 100 20 * 4.184e15) - 10.7 := by
    rw [hlogb]
    nlinarith [logb_pi_gt]
  have hyb2 : 0.67 * Real.logb 10 (asteroid_kinetic_energy 100 20 * 4.184e15) - 10.7 <
      1025 / 1000 := by
    rw [hlogb]
    nlinarith [logb_pi_lt]
  have hmax : max 0 (0.67 * Real.logb 10 (asteroid_kinetic_energy 100 20 * 4.184e15) - 10.7)
      = 0.67 * Real.logb 10 (asteroid_kinetic_energy 100 20 * 4.184e15) - 10.7 :=
    max_eq_right (by linarith)
  have hmagval : impact_earthquake_magnitude (asteroid_kinetic_energy 100 20) = 1 := by
    unfold impact_earthquake_magnitude
    rw [if_neg (not_le.mpr hE), hmax]
    unfold pyRound1
    rw [pyRound_eq_of_bounds (k := 10) (by push_cast; nlinarith) (by push_cast; nlinarith)]
    norm_num
  have hspec : pyRound2 (spec_earthquakeMagnitude (asteroid_kinetic_energy 100 20))
      = 51 / 50 := by
    unfold spec_earthquakeMagnitude
    rw [if_neg (not_le.mpr hE), hmax]
    unfold pyRound2
    rw [pyRound_eq_of_bounds (k := 102) (by push_cast; nlinarith) (by push_cast; nlinarith)]
    norm_num
  have hpm : payloadMagnitude (simulate_impact [] req100 0) =
      impact_earthquake_magnitude (asteroid_kinetic_energy 100 20) := by
    simp [simulate_impact, req100, payloadMagnitude]
  refine ⟨by rw [hpm, hmagval], hspec, ?_⟩
  rw [hpm, hmagval, hspec]
  norm_num

/-- C9 amended: in every successful simulate payload the energy and radius fields
are the hazard values rounded to two decimal places and the population field is the
truncated integer with no rounding, but the earthquake magnitude field is the
hazard function's value, which is rounded to one decimal place (rounding it to one
or two decimals again changes nothing). -/
theorem simulate_payload_rounding (store : List ImpactEvent) (data : SimRequest)
    (rid : ℕ) (lat lon : ℝ) (hla : data.latitude = some lat)
    (hlo : data.longitude = some lon) :
    payloadEnergy (simulate_impact store data rid) =
      pyRound2 (asteroid_kinetic_energy (data.diameter_m.getD 50)
        (data.velocity_km_s.getD 20)) ∧
    payloadRadius (simulate_impact store data rid) =
      pyRound2 (impact_radius_km_real (asteroid_kinetic_energy (data.diameter_m.getD 50)
        (data.velocity_km_s.getD 20))) ∧
    payloadMagnitude (simulate_impact store data rid) =
      impact_earthquake_magnitude (asteroid_kinetic_energy (data.diameter_m.getD 50)
        (data.velocity_km_s.getD 20)) ∧
    pyRound1 (payloadMagnitude (simulate_impact store data rid)) =
      payloadMagnitude (simulate_impact store data rid) ∧
    pyRound2 (payloadMagnitude (simulate_impact store data rid)) =
      payloadMagnitude (simulate_impact store data rid) ∧
    payloadPopulation (simulate_impact store data rid) =
      population_affected (data.pop_density_per_km2.getD 1000)
        (impact_radius_km_real (asteroid_kinetic_energy (data.diameter_m.getD 50)
          (data.velocity_km_s.getD 20))) := by
  have hmag : payloadMagnitude (simulate_impact store data rid) =
      impact_earthquake_magnitude (asteroid_kinetic_energy (data.diameter_m.getD 50)
        (data.velocity_km_s.getD 20)) := by
    simp [simulate_impact, hla, hlo, payloadMagnitude]
  obtain ⟨k, hk⟩ := magnitude_is_tenth
    (asteroid_kinetic_energy (data.diameter_m.getD 50) (data.velocity_km_s.getD 20))
  refine ⟨?_, ?_, hmag, ?_, ?_, ?_⟩
  · simp [simulate_impact, hla, hlo, payloadEnergy]
  · simp [simulate_impact, hla, hlo, payloadRadius]
  · rw [hmag, hk, pyRound1_tenth]
  · rw [hmag, hk, pyRound2_tenth]
  · simp [simulate_impact, hla, hlo, payloadPopulation]

/-- Witness for C9 on the fully populated request okRequest. -/
theorem simulate_payload_rounding_witness :
    payloadEnergy (simulate_impact [] okRequest 0) =
      pyRound2 (asteroid_kinetic_energy (okRequest.diameter_m.getD 50)
        (okRequest.velocity_km_s.getD 20)) ∧
    payloadRadius (simulate_impact [] okRequest 0) =
      pyRound2 (impact_radius_km_real (asteroid_kinetic_energy (okRequest.diameter_m.getD 50)
        (okRequest.velocity_km_s.getD 20))) ∧
    payloadMagnitude (simulate_impact [] okRequest 0) =
      impact_earthquake_magnitude (asteroid_kinetic_energy (okRequest.diameter_m.getD 50)
        (okRequest.velocity_km_s.getD 20)) ∧
    pyRound1 (payloadMagnitude (simulate_impact [] okRequest 0)) =
      payloadMagnitude (simulate_impact [] okRequest 0) ∧
    pyRound2 (payloadMagnitude (simulate_impact [] okRequest 0)) =
      payloadMagnitude (simulate_impact [] okRequest 0) ∧
    payloadPopulation (simulate_impact [] okRequest 0) =
      population_affected (okRequest.pop_density_per_km2.getD 1000)
        (impact_radius_km_real (asteroid_kinetic_energy (okRequest.diameter_m.getD 50)
          (okRequest.velocity_km_s.getD 20))) :=
  simulate_payload_rounding [] okRequest 0 0 0 rfl rfl

/-- C10: when the request body omits latitude or longitude, the simulate operation
fails with the TypeError raised while formatting the event name, before save_impact
runs, so nothing is persisted and the store is returned unchanged. -/
theorem simulate_missing_coordinate_aborts (store : List ImpactEvent)
    (data : SimRequest) (rid : ℕ)
    (h : data.latitude = none ∨ data.longitude = none) :
    simulate_impact store data rid = (store, Except.error SimError.typeError) := by
  rcases h with h | h
  · simp [simulate_impact, h]
  · rcases hl : data.latitude with _ | lat
    · simp [simulate_impact, hl]
    · simp [simulate_impact, hl, h]

/-- Witness for C10 on the request without latitude. -/
theorem simulate_missing_coordinate_aborts_witness :
    simulate_impact [] noLatRequest 7 = ([], Except.error SimError.typeError) :=
  simulate_missing_coordinate_aborts [] noLatRequest 7 (Or.inl rfl)

end MeteorImpact
